import Mathlib

/-!
Verification of the OSTMS firmware core (`src/OSTMS_main.cpp`).

This file gives a shallow embedding of the acquisition-cycle state machine
and the resistance-to-temperature conversion engine of the firmware, and
proves (or refutes) the specified properties about them.

Modelling conventions:
* C `float` arithmetic is embedded as exact rational arithmetic (`ℚ`); the
  claims at stake are structural (branching, clamping, sequencing,
  breakpoint identities at exactly representable inputs) and do not hinge
  on ulp-level rounding.
* The single place where IEEE non-finite values matter (division by zero in
  the voltage-divider recovery) is modelled explicitly with `Option ℚ`,
  where `none` stands for the infinite float produced by `1/0.0f`.
* Global state mutated by the firmware (`channel_1`, `refOn`, `temps[7]`)
  is threaded explicitly through the step functions.
-/

namespace OSTMS

/-- Number of entries of the calibration tables (`dataPoints` in the source). -/
def dataPoints : ℕ := 111

/-- Desired temperature range table (`temperatures[111]` in the source). -/
def temperatures : List ℚ :=
  [0, 1, 2, 3, 4, 5, 6, 7, 8, 9,
   10, 11, 12, 13, 14, 15, 16, 17, 18, 19,
   20, 21, 22, 23, 24, 25, 26, 27, 28, 29,
   30, 31, 32, 33, 34, 35, 36, 37, 38, 39,
   40, 41, 42, 43, 44, 45, 46, 47, 48, 49,
   50, 51, 52, 53, 54, 55, 56, 57, 58, 59,
   60, 61, 62, 63, 64, 65, 66, 67, 68, 69,
   70, 71, 72, 73, 74, 75, 76, 77, 78, 79,
   80, 81, 82, 83, 84, 85, 86, 87, 88, 89,
   90, 91, 92, 93, 94, 95, 96, 97, 98, 99,
   100, 101, 102, 103, 104, 105, 106, 107, 108, 109,
   110]

/-- Thermistor look-up table (`resistancesTherm[111]` in the source).
Note the out-of-order entry `3669.0` at index 61. -/
def resistancesTherm : List ℚ :=
  [29490.0, 28150.0, 26890.0, 25690.0, 24550.0, 23460.0, 22430.0, 21450.0, 20520.0, 19630.0,
   18790.0, 17980.0, 17220.0, 16490.0, 15790.0, 15130.0, 14500.0, 13900.0, 13330.0, 12790.0,
   12260.0, 11770.0, 11290.0, 10840.0, 10410.0, 10000.0, 9605.0, 9227.0, 8867.0, 8523.0,
   8194.0, 7880.0, 7579.0, 7291.0, 7016.0, 6752.0, 6500.0, 6258.0, 6026.0, 5805.0,
   5592.0, 5389.0, 5193.0, 5006.0, 4827.0, 4655.0, 4489.0, 4331.0, 4179.0, 4033.0,
   3893.0, 3758.0, 3629.0, 3504.0, 3385.0, 3270.0, 3160.0, 3054.0, 2952.0, 2854.0,
   2760.0, 3669.0, 2582.0, 2497.0, 2417.0, 2339.0, 2264.0, 2191.0, 2122.0, 2055.0,
   1990.0, 1928.0, 1868.0, 1810.0, 1754.0, 1700.0, 1648.0, 1598.0, 1549.0, 1503.0,
   1458.0, 1414.0, 1372.0, 1332.0, 1293.0, 1255.0, 1218.0, 1183.0, 1149.0, 1116.0,
   1084.0, 1053.0, 1023.0, 994.2, 966.3, 939.3, 913.2, 887.9, 863.4, 839.7,
   816.8, 794.6, 773.1, 752.3, 732.1, 712.6, 693.6, 675.3, 657.5, 640.3,
   623.5]

/-- RTD-100 look-up table (`resistancesRTD[111]` in the source). -/
def resistancesRTD : List ℚ :=
  [100.0, 100.39, 100.78, 101.17, 101.56, 101.95, 102.34, 102.73, 103.12, 103.51,
   103.9, 104.29, 104.68, 105.07, 105.46, 105.85, 106.24, 106.63, 107.02, 107.4,
   107.79, 108.18, 108.57, 108.96, 109.35, 109.73, 110.12, 110.51, 110.9, 111.28,
   111.67, 112.06, 112.45, 112.83, 113.22, 113.61, 113.99, 114.38, 114.77, 115.15,
   115.54, 115.93, 116.31, 116.7, 117.08, 117.47, 117.85, 118.24, 118.62, 119.01,
   119.4, 119.78, 120.16, 120.55, 120.93, 121.32, 121.7, 122.09, 122.47, 122.86,
   123.24, 123.62, 124.01, 124.39, 124.77, 125.17, 125.55, 125.93, 126.32, 126.7,
   127.08, 127.46, 127.85, 128.23, 128.61, 128.99, 129.38, 129.76, 130.14, 130.52,
   130.9, 131.28, 131.67, 132.05, 132.43, 132.81, 133.19, 133.57, 133.95, 134.33,
   134.71, 135.09, 135.47, 135.85, 136.23, 136.61, 136.99, 137.37, 137.75, 138.13,
   138.51, 138.89, 139.27, 139.65, 140.03, 140.39, 140.77, 141.15, 141.53, 141.91,
   142.29]

/-- `#define THERMISTORNOMINAL 10000` -/
def THERMISTORNOMINAL : ℚ := 10000

/-- `#define BCOEFFICIENT 2.896032436e-4` -/
def BCOEFFICIENT : ℚ := 2.896032436e-4

/-- `#define TEMPERATURENOMINAL 298.15` -/
def TEMPERATURENOMINAL : ℚ := 298.15

/-- `#define VS 2.5` (source voltage) -/
def VS : ℚ := 2.5

/-- `#define R_DIVIDER 10000` -/
def R_DIVIDER : ℚ := 10000

/-- `#define ADC_FULLSCALE 8388608` -/
def ADC_FULLSCALE : ℚ := 8388608

/-- `#define NUM_THERMISTORS 6` -/
def NUM_THERMISTORS : ℕ := 6

/-- The `isRef` column of the `adc_in[]` channel configuration table:
entries 0..5 (thermistors T1–T6) are `false`, entry 6 (`"Ref"`) is `true`. -/
def adc_in_isRef : List Bool := [false, false, false, false, false, false, true]

/-- Last element of a list, with a default (used to state clamp bounds). -/
def lastD : List ℚ → ℚ → ℚ
  | [], d => d
  | [a], _ => a
  | _ :: b :: t, d => lastD (b :: t) d

/-- The closed-form inverse-Beta thermistor equation (`getCelcius` in the
source).  It is defined in the firmware but — as proved below — never
invoked by `readData`. -/
noncomputable def getCelcius (thermRes : ℝ) : ℝ :=
  (1 / ((1 / (TEMPERATURENOMINAL : ℝ))
      + (BCOEFFICIENT : ℝ) * Real.log (thermRes / (THERMISTORNOMINAL : ℝ)))) - 273.15

/-- The scan loop of `getCelcius2`: walks the two parallel arrays looking for
the first adjacent pair with `resistancesTherm[i+1] <= R <= resistancesTherm[i]`
and linearly interpolates there; `none` models falling off the end of the loop. -/
def lookupTherm (resistance : ℚ) : List ℚ → List ℚ → Option ℚ
  | ri :: rj :: rs, ti :: tj :: ts =>
      if rj ≤ resistance ∧ resistance ≤ ri then
        some (tj + (ti - tj) * ((resistance - rj) / (ri - rj)))
      else lookupTherm resistance (rj :: rs) (tj :: ts)
  | _, _ => none

/-- The scan loop of `getCelcius3`: same shape with the comparisons flipped
(`resistance <= resistancesRTD[i+1] && resistance >= resistancesRTD[i]`). -/
def lookupRTD (resistance : ℚ) : List ℚ → List ℚ → Option ℚ
  | ri :: rj :: rs, ti :: tj :: ts =>
      if resistance ≤ rj ∧ ri ≤ resistance then
        some (tj + (ti - tj) * ((resistance - rj) / (ri - rj)))
      else lookupRTD resistance (rj :: rs) (tj :: ts)
  | _, _ => none

/-- Reference-thermistor look-up (`getCelcius2` in the source): clamp at the
table boundaries, otherwise scan for a bracketing pair; `-999` on fall-through. -/
def getCelcius2 (resistance : ℚ) : ℚ :=
  if resistancesTherm.getD 0 0 ≤ resistance then
    temperatures.getD 0 0
  else if resistance ≤ resistancesTherm.getD (dataPoints - 1) 0 then
    temperatures.getD (dataPoints - 1) 0
  else
    (lookupTherm resistance resistancesTherm temperatures).getD (-999)

/-- Reference-RTD look-up (`getCelcius3` in the source). -/
def getCelcius3 (resistance : ℚ) : ℚ :=
  if resistance ≤ resistancesRTD.getD 0 0 then
    temperatures.getD 0 0
  else if resistancesRTD.getD (dataPoints - 1) 0 ≤ resistance then
    temperatures.getD (dataPoints - 1) 0
  else
    (lookupRTD resistance resistancesRTD temperatures).getD (-999)

/-- Voltage recovery of `readData`: `voltage_RT = (float(data) / ADC_FULLSCALE) * VS`. -/
def voltage_RT (data : ℤ) : ℚ := ((data : ℚ) / ADC_FULLSCALE) * VS

/-- Resistance recovery of `readData`:
`thermistance = R_DIVIDER * (1 / ((VS/voltage_RT) - 1))`, computed in C float
arithmetic which never traps.  `none` models the infinite float produced when
the divider denominator is exactly zero (`voltage_RT == VS`, raw code
`2^23`): in C this is `1/0.0f == +inf` and flows on silently.  When
`voltage_RT == 0` (raw code `0`), C computes `VS/0.0f == +inf`,
`1/(+inf - 1) == +0.0f`, hence resistance `0`. -/
def thermistance (data : ℤ) : Option ℚ :=
  if voltage_RT data = 0 then some 0
  else if VS / voltage_RT data - 1 = 0 then none
  else some (R_DIVIDER * (1 / (VS / voltage_RT data - 1)))

/-- Conversion performed by `readData(adc, isRef)`: recover the resistance and
dispatch on `isRef` — the reference channel uses the RTD table (`getCelcius3`),
every other channel uses the thermistor table (`getCelcius2`).  The value
returned here is the temperature stored into `temps[channel_1]` by the callee.
An infinite resistance (`none`) compares greater than every table entry, so
`getCelcius2` takes its first clamp branch and `getCelcius3` its second. -/
def readData (data : ℤ) (isRef : Bool) : ℚ :=
  match thermistance data with
  | some r => if isRef then getCelcius3 r else getCelcius2 r
  | none => if isRef then temperatures.getD (dataPoints - 1) 0 else temperatures.getD 0 0

/-- Kind of an outbound notice (the `type` field of `messageDoc`). -/
inductive MsgType
  | info
  | error
deriving DecidableEq

/-- An outbound notice record `{"type": ..., "message": ...}`. -/
structure Msg where
  mtype : MsgType
  text : String
deriving DecidableEq

/-- The `strtok(command, " ")` loop of `parse_command`: splits the buffer on
runs of spaces, producing the non-empty tokens in order (a `'\n'` is not a
delimiter and stays inside its token).  Second argument is the accumulator
for the token currently being built (in reverse). -/
def tokenizeSp : List Char → List Char → List (List Char)
  | [], cur => if cur = [] then [] else [cur.reverse]
  | c :: cs, cur =>
      if c = ' ' then
        if cur = [] then tokenizeSp cs [] else cur.reverse :: tokenizeSp cs []
      else tokenizeSp cs (c :: cur)

/-- Tokens of the command buffer, as produced by the `strtok` loop. -/
def tokens (buf : List Char) : List (List Char) := tokenizeSp buf []

/-- Command interpreter (`parse_command` in the source).  Input `buf` is the
serial command buffer (`command[0] == 0x00`, i.e. an empty buffer, returns at
once).  The C code indexes `tokens[0]` and `tokens[1]` without checking
`numCommands`, so when fewer tokens were produced it reads an indeterminate
stack value; the parameter `uninit` stands for that value, making the model
total and making theorems about the missing-token path quantify over what the
garbage might be.  Returns the new `refOn` flag and the emitted notices. -/
def parse_command (uninit : List Char) (buf : List Char) (refOn : Bool) :
    Bool × List Msg :=
  if buf = [] then (refOn, [])
  else
    let tks := tokens buf
    let t0 := tks.getD 0 uninit
    if t0 = "REF\n".toList ∨ t0 = "REF".toList then
      let t1 := tks.getD 1 uninit
      if t1 = "ON".toList then (true, [⟨MsgType.info, "Ref On"⟩])
      else if t1 = "OFF".toList then (false, [⟨MsgType.info, "Ref Off"⟩])
      else (refOn, [])
    else (refOn, [⟨MsgType.error, "ERROR UNKNOWN COMMAND"⟩])

/-- The sequencer's mutable state: `channel_1`, `refOn`, and the `temps[7]`
result array. -/
structure SeqState where
  channel : ℕ
  refOn : Bool
  temps : Fin 7 → ℚ

/-- Store a conversion result: `temps[channel_1] = temp_C` (an index outside
`0..6` would be an out-of-bounds write in C; it has no modelled effect, and no
reachable state performs one). -/
def writeTemp (temps : Fin 7 → ℚ) (c : ℕ) (v : ℚ) : Fin 7 → ℚ :=
  fun i => if i.val = c then v else temps i

/-- `adc_in[c].isRef`. -/
def adcIsRef (c : ℕ) : Bool := adc_in_isRef.getD c false

/-- Per-conversion environment: the raw ADC code each channel would produce
if read now (`raw`), the pending serial input consumed at a cycle wrap
(`input`, `[]` when `serial_read` returns 0), and the `RDY_1` interrupt flag. -/
structure ConvEnv where
  raw : ℕ → ℤ
  input : List Char
  rdy : Bool

/-- Result of one `handleConversion()` call: the new state, the channels whose
conversions were read (in order), the telemetry frame serialized from
`tsaDoc["temps"]` if the cycle wrapped, and any notices from command parsing. -/
structure StepOut where
  state : SeqState
  reads : List ℕ
  frame : Option (List ℚ)
  msgs : List Msg

/-- One `handleConversion()` call (the `uninit` parameter is threaded to
`parse_command`).  Mirrors the source: if `RDY_1`, read the current channel,
increment `channel_1`; on reaching `NUM_THERMISTORS`, consume serial input,
then either emit the frame with slot 6 zeroed (`!refOn`) or additionally
configure and read channel 6 and emit all seven slots, resetting `channel_1`
to 0 either way. -/
def handleConversion (uninit : List Char) (raw : ℕ → ℤ) (input : List Char)
    (rdy : Bool) (s : SeqState) : StepOut :=
  if rdy then
    let temps1 := writeTemp s.temps s.channel (readData (raw s.channel) (adcIsRef s.channel))
    let c1 := s.channel + 1
    if NUM_THERMISTORS ≤ c1 then
      let pc := if input ≠ [] then parse_command uninit input s.refOn else (s.refOn, [])
      if pc.1 = false then
        { state := ⟨0, pc.1, temps1⟩
          reads := [s.channel]
          frame := some [temps1 0, temps1 1, temps1 2, temps1 3, temps1 4, temps1 5, 0]
          msgs := pc.2 }
      else
        let temps2 := writeTemp temps1 6 (readData (raw 6) (adcIsRef 6))
        { state := ⟨0, pc.1, temps2⟩
          reads := [s.channel, 6]
          frame := some [temps2 0, temps2 1, temps2 2, temps2 3, temps2 4, temps2 5, temps2 6]
          msgs := pc.2 }
    else
      { state := ⟨c1, s.refOn, temps1⟩, reads := [s.channel], frame := none, msgs := [] }
  else
    { state := s, reads := [], frame := none, msgs := [] }

/-- Run a sequence of `handleConversion()` calls, accumulating the channels
read and the telemetry frames emitted. -/
def seqRun (uninit : List Char) : List ConvEnv → SeqState → SeqState × List ℕ × List (List ℚ)
  | [], s => (s, [], [])
  | e :: es, s =>
      let o := handleConversion uninit e.raw e.input e.rdy s
      let r := seqRun uninit es o.state
      (r.1, o.reads ++ r.2.1, o.frame.toList ++ r.2.2)

/-- `const unsigned long messageInterval = 5000;` -/
def messageInterval : ℕ := 5000

/-- State owned by `loop()`: the sequencer state plus `lastMessageTime`. -/
structure LoopState where
  seq : SeqState
  lastMessageTime : ℕ

/-- One iteration of `loop()` at wall-clock time `now` (`millis()`): process a
pending conversion if `RDY_1` is set, then emit the heartbeat notice exactly
when `currentTime - lastMessageTime >= messageInterval`, resetting
`lastMessageTime` to `currentTime`.  Returns the new state and whether the
heartbeat notice was emitted.  (Timestamps are modelled as mathematical
naturals; the 32-bit wrap of `millis()` is out of scope.) -/
def loopStep (uninit : List Char) (e : ConvEnv) (now : ℕ) (st : LoopState) :
    LoopState × Bool :=
  let seq1 := (handleConversion uninit e.raw e.input e.rdy st.seq).state
  if messageInterval ≤ now - st.lastMessageTime then (⟨seq1, now⟩, true)
  else (⟨seq1, st.lastMessageTime⟩, false)

/-- Run `loop()` over a list of iterations (environment and current time per
iteration), collecting the times at which heartbeat notices were emitted. -/
def loopRun (uninit : List Char) : List (ConvEnv × ℕ) → LoopState → LoopState × List ℕ
  | [], st => (st, [])
  | (e, now) :: rest, st =>
      let p := loopStep uninit e now st
      let r := loopRun uninit rest p.1
      (r.1, (if p.2 = true then [now] else []) ++ r.2)

/-! ### Helper lemmas -/

theorem lastD_cons_cons (a b : ℚ) (t : List ℚ) (d : ℚ) :
    lastD (a :: b :: t) d = lastD (b :: t) d := rfl

/-- A quotient of a nonnegative numerator by a larger number lies in `[0, 1]`
(also when the denominator is zero, where Lean's total division yields `0`). -/
theorem div_unit (x y : ℚ) (hx : 0 ≤ x) (hxy : x ≤ y) : 0 ≤ x / y ∧ x / y ≤ 1 := by
  rcases eq_or_lt_of_le (le_trans hx hxy) with hy | hy
  · rw [← hy, div_zero]
    norm_num
  · exact ⟨div_nonneg hx hy.le, (div_le_one hy).mpr hxy⟩

/-- A convex combination of two nonnegative values is nonnegative. -/
theorem interp_nonneg (t0 t1 f : ℚ) (h0 : 0 ≤ t0) (h1 : 0 ≤ t1)
    (hf0 : 0 ≤ f) (hf1 : f ≤ 1) : 0 ≤ t1 + (t0 - t1) * f := by
  nlinarith

/-- The `getCelcius2` scan finds a bracketing pair for every `R` between the
last and the first resistance entry, no matter how the interior entries are
ordered: whenever the pair test fails with `R` at most the segment head, `R`
is strictly below the next head, and at the final singleton that contradicts
the lower bound.  (This is why even the out-of-order entry `3669.0` cannot
make the scan fall through.) -/
theorem lookupTherm_isSome : ∀ (rs ts : List ℚ) (R : ℚ),
    rs.length ≤ ts.length → 2 ≤ rs.length →
    lastD rs 0 ≤ R → R ≤ rs.headD 0 → (lookupTherm R rs ts).isSome := by
  intro rs
  induction rs with
  | nil => intro ts R _ h2 _ _; simp at h2
  | cons r0 rtl ih =>
    cases rtl with
    | nil => intro ts R _ h2 _ _; simp at h2
    | cons r1 rs2 =>
      intro ts R hlen _ hlast hhead
      cases ts with
      | nil => simp at hlen
      | cons t0 ttl =>
        cases ttl with
        | nil => simp at hlen
        | cons t1 ts2 =>
          rw [lookupTherm]
          by_cases hc : r1 ≤ R ∧ R ≤ r0
          · rw [if_pos hc]
            rfl
          · rw [if_neg hc]
            have hr0 : R ≤ r0 := by simpa using hhead
            have hr1 : R < r1 := by
              rcases not_and_or.mp hc with h | h
              · exact lt_of_not_le h
              · exact absurd hr0 h
            cases rs2 with
            | nil =>
              exfalso
              have : r1 ≤ R := by simpa [lastD] using hlast
              exact absurd this (not_le.mpr hr1)
            | cons r2 rs3 =>
              apply ih (t1 :: ts2) R
              · have := hlen
                simp only [List.length_cons] at this ⊢
                omega
              · simp
              · rw [lastD_cons_cons] at hlast
                exact hlast
              · simpa using hr1.le

/-- Mirror of `lookupTherm_isSome` for the ascending RTD scan. -/
theorem lookupRTD_isSome : ∀ (rs ts : List ℚ) (R : ℚ),
    rs.length ≤ ts.length → 2 ≤ rs.length →
    rs.headD 0 ≤ R → R ≤ lastD rs 0 → (lookupRTD R rs ts).isSome := by
  intro rs
  induction rs with
  | nil => intro ts R _ h2 _ _; simp at h2
  | cons r0 rtl ih =>
    cases rtl with
    | nil => intro ts R _ h2 _ _; simp at h2
    | cons r1 rs2 =>
      intro ts R hlen _ hhead hlast
      cases ts with
      | nil => simp at hlen
      | cons t0 ttl =>
        cases ttl with
        | nil => simp at hlen
        | cons t1 ts2 =>
          rw [lookupRTD]
          by_cases hc : R ≤ r1 ∧ r0 ≤ R
          · rw [if_pos hc]
            rfl
          · rw [if_neg hc]
            have hr0 : r0 ≤ R := by simpa using hhead
            have hr1 : r1 < R := by
              rcases not_and_or.mp hc with h | h
              · exact lt_of_not_le h
              · exact absurd hr0 h
            cases rs2 with
            | nil =>
              exfalso
              have : R ≤ r1 := by simpa [lastD] using hlast
              exact absurd this (not_le.mpr hr1)
            | cons r2 rs3 =>
              apply ih (t1 :: ts2) R
              · have := hlen
                simp only [List.length_cons] at this ⊢
                omega
              · simp
              · simpa using hr1.le
              · rw [lastD_cons_cons] at hlast
                exact hlast

/-- Any value the `getCelcius2` scan returns is a convex combination of two
temperature entries, hence nonnegative when all temperatures are. -/
theorem lookupTherm_nonneg : ∀ (rs ts : List ℚ) (R v : ℚ),
    (∀ t ∈ ts, 0 ≤ t) → lookupTherm R rs ts = some v → 0 ≤ v := by
  intro rs
  induction rs with
  | nil => intro ts R v _ hv; cases ts <;> simp [lookupTherm] at hv
  | cons r0 rtl ih =>
    cases rtl with
    | nil => intro ts R v _ hv; cases ts <;> simp [lookupTherm] at hv
    | cons r1 rs2 =>
      intro ts R v hts hv
      cases ts with
      | nil => simp [lookupTherm] at hv
      | cons t0 ttl =>
        cases ttl with
        | nil => simp [lookupTherm] at hv
        | cons t1 ts2 =>
          rw [lookupTherm] at hv
          by_cases hc : r1 ≤ R ∧ R ≤ r0
          · rw [if_pos hc] at hv
            have hv' : v = t1 + (t0 - t1) * ((R - r1) / (r0 - r1)) :=
              (Option.some_inj.mp hv).symm
            have hf := div_unit (R - r1) (r0 - r1) (by linarith [hc.1]) (by linarith [hc.2])
            have h0 : 0 ≤ t0 := hts t0 (by simp)
            have h1 : 0 ≤ t1 := hts t1 (by simp)
            rw [hv']
            exact interp_nonneg t0 t1 _ h0 h1 hf.1 hf.2
          · rw [if_neg hc] at hv
            exact ih (t1 :: ts2) R v (fun t ht => hts t (List.mem_cons_of_mem t0 ht)) hv

/-- Mirror of `lookupTherm_nonneg` for the RTD scan (descending fraction). -/
theorem lookupRTD_nonneg : ∀ (rs ts : List ℚ) (R v : ℚ),
    (∀ t ∈ ts, 0 ≤ t) → lookupRTD R rs ts = some v → 0 ≤ v := by
  intro rs
  induction rs with
  | nil => intro ts R v _ hv; cases ts <;> simp [lookupRTD] at hv
  | cons r0 rtl ih =>
    cases rtl with
    | nil => intro ts R v _ hv; cases ts <;> simp [lookupRTD] at hv
    | cons r1 rs2 =>
      intro ts R v hts hv
      cases ts with
      | nil => simp [lookupRTD] at hv
      | cons t0 ttl =>
        cases ttl with
        | nil => simp [lookupRTD] at hv
        | cons t1 ts2 =>
          rw [lookupRTD] at hv
          by_cases hc : R ≤ r1 ∧ r0 ≤ R
          · rw [if_pos hc] at hv
            have hv' : v = t1 + (t0 - t1) * ((R - r1) / (r0 - r1)) :=
              (Option.some_inj.mp hv).symm
            have hflip : (R - r1) / (r0 - r1) = (r1 - R) / (r1 - r0) := by
              rw [← neg_div_neg_eq]
              ring_nf
            have hf := div_unit (r1 - R) (r1 - r0) (by linarith [hc.1]) (by linarith [hc.2])
            have h0 : 0 ≤ t0 := hts t0 (by simp)
            have h1 : 0 ≤ t1 := hts t1 (by simp)
            rw [hv', hflip]
            exact interp_nonneg t0 t1 _ h0 h1 hf.1 hf.2
          · rw [if_neg hc] at hv
            exact ih (t1 :: ts2) R v (fun t ht => hts t (List.mem_cons_of_mem t0 ht)) hv

set_option maxHeartbeats 4000000 in
/-- All entries of the temperature table are nonnegative. -/
theorem temperatures_nonneg : ∀ t ∈ temperatures, (0:ℚ) ≤ t := by
  norm_num [temperatures]

/-- Spacing invariant of the heartbeat emitter: over any run of `loop()`
iterations with nondecreasing `millis()` values that do not precede the
stored timestamp, the collected heartbeat emission times are at least
`messageInterval` apart, and every emission is at least `messageInterval`
after the initial timestamp. -/
theorem loopRun_spacing (u : List Char) : ∀ (env : List (ConvEnv × ℕ)) (st : LoopState),
    List.Pairwise (fun a b => a ≤ b) (env.map Prod.snd) →
    (∀ p ∈ env, st.lastMessageTime ≤ p.2) →
    List.Chain' (fun a b => a + messageInterval ≤ b) (loopRun u env st).2 ∧
    ∀ x ∈ (loopRun u env st).2, st.lastMessageTime + messageInterval ≤ x := by
  intro env
  induction env with
  | nil => intro st _ _; simp [loopRun]
  | cons hd rest ih =>
    obtain ⟨e, n⟩ := hd
    intro st hpw hall
    have hstn : st.lastMessageTime ≤ n := hall (e, n) (by simp)
    rw [List.map_cons] at hpw
    obtain ⟨hner, hpwr⟩ := List.pairwise_cons.mp hpw
    simp only [loopRun]
    by_cases hhb : messageInterval ≤ n - st.lastMessageTime
    · rw [show loopStep u e n st
          = (⟨(handleConversion u e.raw e.input e.rdy st.seq).state, n⟩, true) from by
        simp [loopStep, hhb]]
      rw [if_pos rfl, List.singleton_append]
      have hb5 : st.lastMessageTime + messageInterval ≤ n := by
        omega
      have ihr := ih ⟨(handleConversion u e.raw e.input e.rdy st.seq).state, n⟩ hpwr
        (by intro p hp; exact hner p.2 (List.mem_map_of_mem Prod.snd hp))
      constructor
      · refine List.chain'_cons'.mpr ⟨?_, ihr.1⟩
        intro b hb
        exact ihr.2 b (List.mem_of_mem_head? hb)
      · intro x hx
        rcases List.mem_cons.mp hx with rfl | hx'
        · exact hb5
        · have hnx : n + messageInterval ≤ x := ihr.2 x hx'
          omega
    · rw [show loopStep u e n st
          = (⟨(handleConversion u e.raw e.input e.rdy st.seq).state, st.lastMessageTime⟩, false)
          from by simp [loopStep, hhb]]
      rw [if_neg (by simp), List.nil_append]
      exact ih ⟨(handleConversion u e.raw e.input e.rdy st.seq).state, st.lastMessageTime⟩
        hpwr (by intro p hp; exact hall p (List.mem_cons_of_mem _ hp))

/-! ### Claims -/

/-- C1: the open-circuit case `voltage == SUPPLY_VOLTS` (raw code `2^23`,
divider denominator zero) is NOT surfaced as an error by `readData`: the
infinite resistance silently clamps through `getCelcius2` to the table's
first temperature `0 °C`, exactly the value also produced by the legitimate
reading with raw code `6291456` (resistance `30000 Ω ≥ 29490 Ω`), with no
error indication anywhere in the conversion path.  This refutes the claim as
a property of the code (the spec states the intended behavior). -/
theorem readData_open_circuit_indistinguishable :
    thermistance 8388608 = none ∧
    readData 8388608 false = 0 ∧
    thermistance 6291456 = some 30000 ∧
    readData 6291456 false = 0 := by
  refine ⟨?_, ?_, ?_, ?_⟩ <;>
    norm_num [readData, thermistance, voltage_RT, VS, ADC_FULLSCALE, R_DIVIDER,
      getCelcius2, dataPoints, resistancesTherm, temperatures]

/-- C2 counterexample: at recovered resistance `20000 Ω` the value the
firmware stores for a non-reference channel (the table interpolation
`getCelcius2 20000 = 764/89 ≈ 8.584 °C`) differs from the closed-form
inverse-Beta equation (`getCelcius 20000 ≈ 8.16 °C`), so non-reference
temperatures are not derived by the closed-form equation. -/
theorem getCelcius2_ne_closed_form_at_20000 :
    ((getCelcius2 20000 : ℚ) : ℝ) ≠ getCelcius 20000 := by
  have hval : getCelcius2 20000 = 764 / 89 := by
    norm_num [getCelcius2, dataPoints, lookupTherm, resistancesTherm, temperatures]
  rw [hval]
  push_cast
  have hlog : (0.6931471803 : ℝ) < Real.log 2 := Real.log_two_gt_d9
  have harg : (20000 : ℝ) / ((THERMISTORNOMINAL : ℚ) : ℝ) = 2 := by
    norm_num [THERMISTORNOMINAL]
  simp only [getCelcius]
  rw [harg]
  have hTN : ((TEMPERATURENOMINAL : ℚ) : ℝ) = 298.15 := by norm_num [TEMPERATURENOMINAL]
  have hB : ((BCOEFFICIENT : ℚ) : ℝ) = 2.896032436e-4 := by norm_num [BCOEFFICIENT]
  rw [hTN, hB]
  have hB0 : (0:ℝ) < 2.896032436e-4 := by norm_num
  have hd0 : (0:ℝ) < 1 / 298.15 + 2.896032436e-4 * 0.6931471803 := by norm_num
  have hdlt : 1 / 298.15 + 2.896032436e-4 * 0.6931471803
      < 1 / 298.15 + 2.896032436e-4 * Real.log 2 := by
    have := mul_lt_mul_of_pos_left hlog hB0
    linarith
  have hrec : 1 / (1 / 298.15 + 2.896032436e-4 * Real.log 2)
      < 1 / (1 / 298.15 + 2.896032436e-4 * (0.6931471803:ℝ)) :=
    one_div_lt_one_div_of_lt hd0 hdlt
  have hnum : 1 / (1 / 298.15 + 2.896032436e-4 * (0.6931471803:ℝ)) < 281.7 := by norm_num
  have hfin : 1 / (1 / 298.15 + 2.896032436e-4 * Real.log 2) - 273.15 < 764 / 89 := by
    have h89 : (281.7:ℝ) - 273.15 < 764 / 89 := by norm_num
    linarith
  exact ne_of_gt hfin

/-- C2 amended: for every non-reference channel the stored temperature is the
thermistor-table lookup `getCelcius2` applied to the recovered resistance
(the closed-form `getCelcius` is defined but not on this path), and the
spec's worked example raw code `4194304` indeed yields `25 °C` — via the
table, whose breakpoint at `10000 Ω` is exactly `25`. -/
theorem readData_nonref_uses_lookup_table :
    (∀ (d : ℤ) (r : ℚ), thermistance d = some r → readData d false = getCelcius2 r)
    ∧ readData 4194304 false = 25 := by
  constructor
  · intro d r h
    simp [readData, h]
  · norm_num [readData, thermistance, voltage_RT, VS, ADC_FULLSCALE, R_DIVIDER,
      getCelcius2, dataPoints, lookupTherm, resistancesTherm, temperatures]

/-- C2 witness: the dispatch equation instantiated at the worked example. -/
theorem readData_nonref_uses_lookup_table_witness :
    thermistance 4194304 = some 10000 ∧ readData 4194304 false = getCelcius2 10000 := by
  have h : thermistance 4194304 = some 10000 := by
    norm_num [thermistance, voltage_RT, VS, ADC_FULLSCALE, R_DIVIDER]
  exact ⟨h, readData_nonref_uses_lookup_table.1 4194304 10000 h⟩

/-- C3: at the out-of-order breakpoint `3669.0` (index 61 of the thermistor
table, whose tabulated temperature is `61 °C`) the scan matches the earlier
pair `(3758, 3629)` first and interpolates to `52 - 40/129 = 6668/129 ≈
51.69 °C`, so the lookup does not return the breakpoint's own temperature —
the table's data-entry error breaks exact breakpoint recovery. -/
theorem getCelcius2_breakpoint_3669_mismatch :
    getCelcius2 3669 = 6668 / 129 ∧ (6668 / 129 : ℚ) ≠ 61 := by
  constructor
  · norm_num [getCelcius2, dataPoints, lookupTherm, resistancesTherm, temperatures]
  · norm_num

/-- C4: a full acquisition cycle started at channel 0 with six ready
conversions reads the channels in order `0,1,2,3,4,5`, appends a read of
channel 6 exactly when the reference flag (as updated by any command consumed
at the wrap) is set, and wraps the channel index back to 0. -/
theorem sequencer_cycle_order (u : List Char) (e1 e2 e3 e4 e5 e6 : ConvEnv) (s : SeqState)
    (h0 : s.channel = 0)
    (h1 : e1.rdy = true) (h2 : e2.rdy = true) (h3 : e3.rdy = true)
    (h4 : e4.rdy = true) (h5 : e5.rdy = true) (h6 : e6.rdy = true) :
    (seqRun u [e1, e2, e3, e4, e5, e6] s).2.1
      = [0, 1, 2, 3, 4, 5] ++ (if (seqRun u [e1, e2, e3, e4, e5, e6] s).1.refOn then [6] else [])
    ∧ (seqRun u [e1, e2, e3, e4, e5, e6] s).1.channel = 0 := by
  simp +decide [seqRun, handleConversion, h0, h1, h2, h3, h4, h5, h6, NUM_THERMISTORS]
  split <;> split <;> simp_all

/-- C4 witness: one concrete all-ready cycle from channel 0. -/
theorem sequencer_cycle_order_witness :
    (seqRun [] [⟨fun _ => 0, [], true⟩, ⟨fun _ => 0, [], true⟩, ⟨fun _ => 0, [], true⟩,
        ⟨fun _ => 0, [], true⟩, ⟨fun _ => 0, [], true⟩, ⟨fun _ => 0, [], true⟩]
        ⟨0, false, fun _ => 0⟩).2.1
      = [0, 1, 2, 3, 4, 5]
        ++ (if (seqRun [] [⟨fun _ => 0, [], true⟩, ⟨fun _ => 0, [], true⟩,
              ⟨fun _ => 0, [], true⟩, ⟨fun _ => 0, [], true⟩, ⟨fun _ => 0, [], true⟩,
              ⟨fun _ => 0, [], true⟩] ⟨0, false, fun _ => 0⟩).1.refOn then [6] else [])
    ∧ (seqRun [] [⟨fun _ => 0, [], true⟩, ⟨fun _ => 0, [], true⟩, ⟨fun _ => 0, [], true⟩,
        ⟨fun _ => 0, [], true⟩, ⟨fun _ => 0, [], true⟩, ⟨fun _ => 0, [], true⟩]
        ⟨0, false, fun _ => 0⟩).1.channel = 0 :=
  sequencer_cycle_order [] ⟨fun _ => 0, [], true⟩ ⟨fun _ => 0, [], true⟩
    ⟨fun _ => 0, [], true⟩ ⟨fun _ => 0, [], true⟩ ⟨fun _ => 0, [], true⟩
    ⟨fun _ => 0, [], true⟩ ⟨0, false, fun _ => 0⟩ rfl rfl rfl rfl rfl rfl rfl

/-- C5: every emitted telemetry frame has exactly 7 slots and slot 6 is `0.0`
whenever the cycle's reference flag is off; a frame is never emitted before
the cycle wraps (no partial frames), never without a ready conversion, and a
full all-ready cycle from channel 0 emits exactly one frame, at the wrap. -/
theorem telemetry_frame_contract (u : List Char) (e1 e2 e3 e4 e5 e6 : ConvEnv)
    (s s2 : SeqState) (raw : ℕ → ℤ) (input : List Char) (rdy : Bool)
    (h0 : s.channel = 0)
    (h1 : e1.rdy = true) (h2 : e2.rdy = true) (h3 : e3.rdy = true)
    (h4 : e4.rdy = true) (h5 : e5.rdy = true) (h6 : e6.rdy = true) :
    (∀ f, (handleConversion u raw input rdy s2).frame = some f →
        f.length = 7 ∧
        ((handleConversion u raw input rdy s2).state.refOn = false → f.getD 6 0 = 0))
    ∧ (s2.channel + 1 < NUM_THERMISTORS → (handleConversion u raw input rdy s2).frame = none)
    ∧ ((handleConversion u raw input false s2).frame = none)
    ∧ (∃ f, (seqRun u [e1, e2, e3, e4, e5, e6] s).2.2 = [f] ∧ f.length = 7 ∧
        ((seqRun u [e1, e2, e3, e4, e5, e6] s).1.refOn = false → f.getD 6 0 = 0)) := by
  refine ⟨?_, ?_, ?_, ?_⟩
  · intro f
    simp only [handleConversion]
    repeat' split
    all_goals intro hf
    all_goals simp at hf
    all_goals subst hf
    all_goals refine ⟨by simp, fun hro => ?_⟩
    all_goals simp_all
  · intro hlt
    simp only [handleConversion]
    repeat' split
    all_goals first | rfl | omega
  · simp [handleConversion]
  · simp +decide [seqRun, handleConversion, h0, h1, h2, h3, h4, h5, h6, NUM_THERMISTORS]
    split <;> split
    all_goals exact ⟨_, rfl, by simp, fun hro => by simp_all⟩

/-- C5 witness: the contract instantiated on one concrete all-ready cycle. -/
theorem telemetry_frame_contract_witness :
    (∀ f, (handleConversion [] (fun _ => 0) [] true ⟨0, false, fun _ => 0⟩).frame = some f →
        f.length = 7 ∧
        ((handleConversion [] (fun _ => 0) [] true
          ⟨0, false, fun _ => 0⟩).state.refOn = false → f.getD 6 0 = 0))
    ∧ ((⟨0, false, fun _ => 0⟩ : SeqState).channel + 1 < NUM_THERMISTORS →
        (handleConversion [] (fun _ => 0) [] true ⟨0, false, fun _ => 0⟩).frame = none)
    ∧ ((handleConversion [] (fun _ => 0) [] false ⟨0, false, fun _ => 0⟩).frame = none)
    ∧ (∃ f, (seqRun [] [⟨fun _ => 0, [], true⟩, ⟨fun _ => 0, [], true⟩,
          ⟨fun _ => 0, [], true⟩, ⟨fun _ => 0, [], true⟩, ⟨fun _ => 0, [], true⟩,
          ⟨fun _ => 0, [], true⟩] ⟨0, false, fun _ => 0⟩).2.2 = [f] ∧ f.length = 7 ∧
        ((seqRun [] [⟨fun _ => 0, [], true⟩, ⟨fun _ => 0, [], true⟩, ⟨fun _ => 0, [], true⟩,
          ⟨fun _ => 0, [], true⟩, ⟨fun _ => 0, [], true⟩, ⟨fun _ => 0, [], true⟩]
          ⟨0, false, fun _ => 0⟩).1.refOn = false → f.getD 6 0 = 0)) :=
  telemetry_frame_contract [] ⟨fun _ => 0, [], true⟩ ⟨fun _ => 0, [], true⟩
    ⟨fun _ => 0, [], true⟩ ⟨fun _ => 0, [], true⟩ ⟨fun _ => 0, [], true⟩
    ⟨fun _ => 0, [], true⟩ ⟨0, false, fun _ => 0⟩ ⟨0, false, fun _ => 0⟩
    (fun _ => 0) [] true rfl rfl rfl rfl rfl rfl rfl

/-- C6 counterexample: the line `"REF ON\n"` — the `REF ON` command with a
trailing line terminator — does not set the reference flag (and emits no
notice): the terminator sticks to the second token, which then matches
neither `"ON"` nor `"OFF"`.  The interpreter is therefore not tolerant of a
trailing line terminator on the command as a whole. -/
theorem ref_on_trailing_newline_ignored :
    parse_command [] ("REF ON\n".toList) false = (false, []) := by
  decide

/-- C6 amended: `"REF ON"` sets the reference flag and `"REF OFF"` clears it
(from any prior state); matching is case-sensitive (`"ref on"` is an unknown
command); but tolerance of a trailing line terminator only covers a
terminator attached to the first token (`"REF\n"`), not one at the end of the
line: `"REF ON\n"` leaves the state unchanged. -/
theorem ref_command_behavior (u : List Char) (b : Bool) :
    (parse_command u ("REF ON".toList) b).1 = true ∧
    (parse_command u ("REF OFF".toList) b).1 = false ∧
    parse_command u ("REF ON\n".toList) b = (b, []) ∧
    parse_command u ("ref on".toList) b = (b, [⟨MsgType.error, "ERROR UNKNOWN COMMAND"⟩]) := by
  refine ⟨?_, ?_, ?_, ?_⟩ <;>
    simp +decide [parse_command, tokens, tokenizeSp]

/-- C7 counterexample: the input `"REF"` (recognized first token, missing
second token) emits no notice at all — in particular no Error notice — the
`switch` takes the `_REF` case and the uninitialized `tokens[1]` comparison
matches neither argument, reaching no error path. -/
theorem ref_missing_token_no_error_notice :
    (parse_command [] ("REF".toList) false).2 = [] := by
  decide

/-- C7 amended: an unrecognized first token always yields exactly the
`ERROR UNKNOWN COMMAND` notice with the state unchanged; but a recognized
`REF` with its second token missing yields NO error notice (state unchanged
whenever the indeterminate `tokens[1]` value is neither `"ON"` nor `"OFF"`;
and no error notice for any indeterminate value whatsoever). -/
theorem unknown_command_error_behavior :
    (∀ (u buf : List Char) (b : Bool), buf ≠ [] →
        (tokens buf).getD 0 u ≠ "REF\n".toList →
        (tokens buf).getD 0 u ≠ "REF".toList →
        parse_command u buf b = (b, [⟨MsgType.error, "ERROR UNKNOWN COMMAND"⟩]))
    ∧ (∀ (u : List Char) (b : Bool), u ≠ "ON".toList → u ≠ "OFF".toList →
        parse_command u ("REF".toList) b = (b, []))
    ∧ (∀ (u : List Char) (b : Bool),
        (parse_command u ("REF".toList) b).2.all (fun m => m.mtype ≠ MsgType.error)) := by
  refine ⟨?_, ?_, ?_⟩
  · intro u buf b hbuf h0 h1
    simp at h0 h1
    simp [parse_command, hbuf, h0, h1]
  · intro u b hON hOFF
    simp at hON hOFF
    simp +decide [parse_command, tokens, tokenizeSp, hON, hOFF]
  · intro u b
    by_cases hON : u = "ON".toList
    · subst hON
      cases b <;> decide
    · by_cases hOFF : u = "OFF".toList
      · subst hOFF
        cases b <;> decide
      · simp at hON hOFF
        simp +decide [parse_command, tokens, tokenizeSp, hON, hOFF]

/-- C7 witness: concrete inputs for the amended behavior. -/
theorem unknown_command_error_behavior_witness :
    ("FOO BAR".toList ≠ ([] : List Char)) ∧
    parse_command [] ("FOO BAR".toList) false
      = (false, [⟨MsgType.error, "ERROR UNKNOWN COMMAND"⟩]) ∧
    parse_command ['X'] ("REF".toList) true = (true, []) :=
  ⟨by decide,
   unknown_command_error_behavior.1 [] ("FOO BAR".toList) false (by decide) (by decide)
     (by decide),
   unknown_command_error_behavior.2.1 ['X'] true (by decide) (by decide)⟩

/-- C8: resistances at or beyond a table's extreme entries are clamped to the
extreme entry's temperature — `getCelcius2` returns `temperatures[0]` for
`R ≥ resistancesTherm[0]` and `temperatures[110]` for
`R ≤ resistancesTherm[110]`, and `getCelcius3` mirrors this for the ascending
RTD table; no extrapolation and no error. -/
theorem lookup_clamps_out_of_range : ∀ R : ℚ,
    (resistancesTherm.getD 0 0 ≤ R → getCelcius2 R = temperatures.getD 0 0) ∧
    (R ≤ resistancesTherm.getD (dataPoints - 1) 0 →
      getCelcius2 R = temperatures.getD (dataPoints - 1) 0) ∧
    (R ≤ resistancesRTD.getD 0 0 → getCelcius3 R = temperatures.getD 0 0) ∧
    (resistancesRTD.getD (dataPoints - 1) 0 ≤ R →
      getCelcius3 R = temperatures.getD (dataPoints - 1) 0) := by
  intro R
  refine ⟨?_, ?_, ?_, ?_⟩
  · intro h
    rw [getCelcius2, if_pos h]
  · intro h
    have h1 : ¬ resistancesTherm.getD 0 0 ≤ R := by
      rw [show resistancesTherm.getD 0 0 = (29490.0:ℚ) from rfl]
      rw [show resistancesTherm.getD (dataPoints - 1) 0 = (623.5:ℚ) from rfl] at h
      exact not_le.mpr (lt_of_le_of_lt h (by norm_num))
    rw [getCelcius2, if_neg h1, if_pos h]
  · intro h
    rw [getCelcius3, if_pos h]
  · intro h
    have h1 : ¬ R ≤ resistancesRTD.getD 0 0 := by
      rw [show resistancesRTD.getD 0 0 = (100.0:ℚ) from rfl]
      rw [show resistancesRTD.getD (dataPoints - 1) 0 = (142.29:ℚ) from rfl] at h
      exact not_le.mpr (lt_of_lt_of_le (by norm_num) h)
    rw [getCelcius3, if_neg h1, if_pos h]

/-- C8 witness: concrete out-of-range resistances on each side of each table. -/
theorem lookup_clamps_out_of_range_witness :
    getCelcius2 30000 = temperatures.getD 0 0 ∧
    getCelcius2 600 = temperatures.getD (dataPoints - 1) 0 ∧
    getCelcius3 90 = temperatures.getD 0 0 ∧
    getCelcius3 150 = temperatures.getD (dataPoints - 1) 0 :=
  ⟨(lookup_clamps_out_of_range 30000).1
      (by rw [show resistancesTherm.getD 0 0 = (29490.0:ℚ) from rfl]; norm_num),
   (lookup_clamps_out_of_range 600).2.1
      (by rw [show resistancesTherm.getD (dataPoints - 1) 0 = (623.5:ℚ) from rfl]; norm_num),
   (lookup_clamps_out_of_range 90).2.2.1
      (by rw [show resistancesRTD.getD 0 0 = (100.0:ℚ) from rfl]; norm_num),
   (lookup_clamps_out_of_range 150).2.2.2
      (by rw [show resistancesRTD.getD (dataPoints - 1) 0 = (142.29:ℚ) from rfl]; norm_num)⟩

/-- C9: over any `loop()` run with nondecreasing `millis()` samples (none
before the stored timestamp), consecutive heartbeat notices are at least
`messageInterval = 5000 ms` apart; a single iteration emits the notice
exactly when `now - lastMessageTime ≥ messageInterval`; and the emission
decision is completely independent of the conversion environment (in
particular of the `RDY_1` flag — a stalled sequencer does not stop it). -/
theorem heartbeat_spacing_and_independence (u : List Char) (env : List (ConvEnv × ℕ))
    (st st2 : LoopState) (ea eb : ConvEnv) (now : ℕ)
    (hpw : List.Pairwise (fun a b => a ≤ b) (env.map Prod.snd))
    (hall : ∀ p ∈ env, st.lastMessageTime ≤ p.2) :
    List.Chain' (fun a b => a + messageInterval ≤ b) (loopRun u env st).2
    ∧ ((loopStep u ea now st2).2 = true ↔ messageInterval ≤ now - st2.lastMessageTime)
    ∧ (loopStep u ea now st2).2 = (loopStep u eb now st2).2 := by
  refine ⟨(loopRun_spacing u env st hpw hall).1, ?_, ?_⟩
  · by_cases h : messageInterval ≤ now - st2.lastMessageTime <;> simp [loopStep, h]
  · by_cases h : messageInterval ≤ now - st2.lastMessageTime <;> simp [loopStep, h]

/-- C9 witness: a stalled run (every iteration has `RDY_1 = false`) over
times `1000, 6000, 7000, 12000` starting from timestamp `0`. -/
theorem heartbeat_spacing_and_independence_witness :
    List.Chain' (fun a b => a + messageInterval ≤ b)
      (loopRun [] [(⟨fun _ => 0, [], false⟩, 1000), (⟨fun _ => 0, [], false⟩, 6000),
        (⟨fun _ => 0, [], false⟩, 7000), (⟨fun _ => 0, [], false⟩, 12000)]
        ⟨⟨0, false, fun _ => 0⟩, 0⟩).2
    ∧ ((loopStep [] ⟨fun _ => 0, [], false⟩ 4321 ⟨⟨0, false, fun _ => 0⟩, 0⟩).2 = true ↔
        messageInterval ≤ 4321 - (⟨⟨0, false, fun _ => 0⟩, 0⟩ : LoopState).lastMessageTime)
    ∧ (loopStep [] ⟨fun _ => 0, [], false⟩ 4321 ⟨⟨0, false, fun _ => 0⟩, 0⟩).2
        = (loopStep [] ⟨fun _ => 1, ['R'], true⟩ 4321 ⟨⟨0, false, fun _ => 0⟩, 0⟩).2 :=
  heartbeat_spacing_and_independence [] _ ⟨⟨0, false, fun _ => 0⟩, 0⟩
    ⟨⟨0, false, fun _ => 0⟩, 0⟩ ⟨fun _ => 0, [], false⟩ ⟨fun _ => 1, ['R'], true⟩ 4321
    (by decide) (by decide)

/-- C10: for every (finite) rational resistance, neither `getCelcius2` nor
`getCelcius3` ever reaches the `-999` sentinel branch: the clamp branches
return table temperatures, and in between the scan always finds a bracketing
pair (even across the out-of-order entry `3669.0`) whose interpolated value
is a convex combination of nonnegative table temperatures. -/
theorem lookup_never_returns_sentinel : ∀ R : ℚ,
    getCelcius2 R ≠ -999 ∧ getCelcius3 R ≠ -999 := by
  intro R
  constructor
  · by_cases hA : resistancesTherm.getD 0 0 ≤ R
    · rw [getCelcius2, if_pos hA]
      rw [show temperatures.getD 0 0 = (0:ℚ) from rfl]
      norm_num
    · by_cases hB : R ≤ resistancesTherm.getD (dataPoints - 1) 0
      · rw [getCelcius2, if_neg hA, if_pos hB]
        rw [show temperatures.getD (dataPoints - 1) 0 = (110:ℚ) from rfl]
        norm_num
      · rw [getCelcius2, if_neg hA, if_neg hB]
        have hlen : resistancesTherm.length ≤ temperatures.length := by
          rw [show resistancesTherm.length = 111 from rfl,
            show temperatures.length = 111 from rfl]
        have h2 : 2 ≤ resistancesTherm.length := by
          rw [show resistancesTherm.length = 111 from rfl]
          omega
        have hlast : lastD resistancesTherm 0 ≤ R := by
          rw [show lastD resistancesTherm 0 = resistancesTherm.getD (dataPoints - 1) 0 from rfl]
          exact (not_le.mp hB).le
        have hhead : R ≤ resistancesTherm.headD 0 := by
          rw [show resistancesTherm.headD 0 = resistancesTherm.getD 0 0 from rfl]
          exact (not_le.mp hA).le
        obtain ⟨v, hv⟩ := Option.isSome_iff_exists.mp
          (lookupTherm_isSome resistancesTherm temperatures R hlen h2 hlast hhead)
        rw [hv, Option.getD_some]
        have hnn := lookupTherm_nonneg resistancesTherm temperatures R v temperatures_nonneg hv
        intro hcontra
        rw [hcontra] at hnn
        norm_num at hnn
  · by_cases hA : R ≤ resistancesRTD.getD 0 0
    · rw [getCelcius3, if_pos hA]
      rw [show temperatures.getD 0 0 = (0:ℚ) from rfl]
      norm_num
    · by_cases hB : resistancesRTD.getD (dataPoints - 1) 0 ≤ R
      · rw [getCelcius3, if_neg hA, if_pos hB]
        rw [show temperatures.getD (dataPoints - 1) 0 = (110:ℚ) from rfl]
        norm_num
      · rw [getCelcius3, if_neg hA, if_neg hB]
        have hlen : resistancesRTD.length ≤ temperatures.length := by
          rw [show resistancesRTD.length = 111 from rfl,
            show temperatures.length = 111 from rfl]
        have h2 : 2 ≤ resistancesRTD.length := by
          rw [show resistancesRTD.length = 111 from rfl]
          omega
        have hhead : resistancesRTD.headD 0 ≤ R := by
          rw [show resistancesRTD.headD 0 = resistancesRTD.getD 0 0 from rfl]
          exact (not_le.mp hA).le
        have hlast : R ≤ lastD resistancesRTD 0 := by
          rw [show lastD resistancesRTD 0 = resistancesRTD.getD (dataPoints - 1) 0 from rfl]
          exact (not_le.mp hB).le
        obtain ⟨v, hv⟩ := Option.isSome_iff_exists.mp
          (lookupRTD_isSome resistancesRTD temperatures R hlen h2 hhead hlast)
        rw [hv, Option.getD_some]
        have hnn := lookupRTD_nonneg resistancesRTD temperatures R v temperatures_nonneg hv
        intro hcontra
        rw [hcontra] at hnn
        norm_num at hnn

end OSTMS
